import Mathlib

/-!
Verification of the callback trampoline in
`src/internal/api/rust/matrix_sdk_ffi/matrix_sdk_ffi.c`:

```c
void cgo_rust_task_callback_bridge_matrix_sdk_ffi(RustTaskCallback cb,
    const void * taskData, int8_t status) {
  cb(taskData, status);
}
```

The body is a single call through the function pointer `cb`.  We give it a
trace semantics: executing a piece of code produces a finite list of
observable events (calls through function pointers, memory reads and
writes, spawned tasks) together with an outcome (normal return, trap,
divergence, or undefined behavior).  A function pointer is a bit pattern
(`Ptr`); an environment maps each bit pattern either to the behavior of
the function it designates, or to `none` when the pointer is null or
otherwise invalid, in which case calling through it is undefined behavior.
The trampoline's semantics is exactly the semantics of its one call
statement.
-/

/-- Bit pattern of a C pointer (`const void *` or a function pointer),
modelled as its address value; `0` is the null pointer. -/
abbrev Ptr := Nat

/-- Observable events of an execution: a call issued through a function
pointer with its two argument values, a memory read, a memory write, and
the spawning or queueing of asynchronous work. -/
inductive Event where
  | call (fn : Ptr) (ctx : Ptr) (status : Int)
  | readMem (addr : Ptr)
  | writeMem (addr : Ptr) (val : Nat)
  | spawn (task : Nat)
  deriving DecidableEq, Repr

/-- How an execution ends: normal return, a raised trap or abort,
divergence (never returning), or undefined behavior. -/
inductive Outcome where
  | returns
  | traps
  | diverges
  | undef
  deriving DecidableEq, Repr

/-- A behavior: the finite trace of observable events of an execution
(its observable prefix, when the execution diverges) and its outcome. -/
structure Behavior where
  events : List Event
  outcome : Outcome
  deriving DecidableEq, Repr

/-- The behavior of a `RustTaskCallback` once invoked, as a function of
its two arguments `(const void *taskData, int8_t status)`. -/
abbrev RustTaskCallback := Ptr → Int → Behavior

/-- A function-pointer environment: which bit patterns designate valid
functions and what those functions do.  An invalid pointer (the null
pointer in particular) is mapped to `none`. -/
abbrev FnEnv := Ptr → Option RustTaskCallback

/-- Semantics of the C call statement `fn(ctx, status)` through a function
pointer: the call event is issued, then, for a valid pointer, the callee
runs inline (its events follow the call event immediately) and the whole
statement ends with the callee's outcome; for an invalid (e.g. null)
pointer the call is undefined behavior at the call site. -/
def invokeFnPtr (env : FnEnv) (fn : Ptr) (ctx : Ptr) (status : Int) : Behavior :=
  match env fn with
  | some f =>
      let b := f ctx status
      { events := Event.call fn ctx status :: b.events, outcome := b.outcome }
  | none => { events := [Event.call fn ctx status], outcome := Outcome.undef }

/-- Semantics of `cgo_rust_task_callback_bridge_matrix_sdk_ffi(cb, taskData,
status)`: the body is the single statement `cb(taskData, status);`. -/
def cgo_rust_task_callback_bridge_matrix_sdk_ffi
    (env : FnEnv) (cb : Ptr) (taskData : Ptr) (status : Int) : Behavior :=
  invokeFnPtr env cb taskData status

/-- Does this event call through the function pointer `fn`? -/
def isCallTo (fn : Ptr) : Event → Bool
  | Event.call f _ _ => f = fn
  | _ => false

/-- Is this event a call through any function pointer? -/
def isCall : Event → Bool
  | Event.call _ _ _ => true
  | _ => false

/-- Is this event a memory read or write? -/
def isMemAccess : Event → Bool
  | Event.readMem _ => true
  | Event.writeMem _ _ => true
  | _ => false

/-- Is this event a spawn of asynchronous work? -/
def isSpawn : Event → Bool
  | Event.spawn _ => true
  | _ => false

/-- The sub-trace of calls issued through the function pointer `fn`. -/
def callsTo (fn : Ptr) (tr : List Event) : List Event :=
  tr.filter (isCallTo fn)

/-- The sub-trace of memory reads and writes. -/
def memAccesses (tr : List Event) : List Event :=
  tr.filter isMemAccess

/-- The sub-trace of spawn events. -/
def spawnEvents (tr : List Event) : List Event :=
  tr.filter isSpawn

/-- Number of calls through `fn` in a trace. -/
def countCalls (fn : Ptr) (tr : List Event) : Nat :=
  tr.countP (isCallTo fn)

/-- Number of calls through `fn` carrying exactly the arguments
`(ctx, status)`. -/
def countCallsWith (fn ctx : Ptr) (status : Int) (tr : List Event) : Nat :=
  tr.countP (fun e => e = Event.call fn ctx status)

/-- A callback that records nothing and returns: it performs no events of
its own. -/
def recordingCallback : RustTaskCallback :=
  fun _ _ => { events := [], outcome := Outcome.returns }

/-- A callback that traps when invoked. -/
def trappingCallback : RustTaskCallback :=
  fun _ _ => { events := [], outcome := Outcome.traps }

/-- A test environment in which the bit pattern `1` designates the
recording callback, `2` the trapping callback, and every other pattern
(the null pointer `0` in particular) is invalid. -/
def testEnv : FnEnv := fun p =>
  if p = 1 then some recordingCallback
  else if p = 2 then some trappingCallback
  else none

/-- `tr` is an interleaving of the traces `xs` and `ys`, as produced by
two threads running concurrently. -/
inductive Interleave : List Event → List Event → List Event → Prop where
  | nil : Interleave [] [] []
  | left : ∀ (e : Event) {xs ys zs}, Interleave xs ys zs →
      Interleave (e :: xs) ys (e :: zs)
  | right : ∀ (e : Event) {xs ys zs}, Interleave xs ys zs →
      Interleave xs (e :: ys) (e :: zs)

theorem Interleave.countP_eq (p : Event → Bool) :
    ∀ {xs ys zs : List Event}, Interleave xs ys zs →
      zs.countP p = xs.countP p + ys.countP p := by
  intro xs ys zs h
  induction h with
  | nil => simp
  | left e h ih => simp [List.countP_cons, ih]; omega
  | right e h ih => simp [List.countP_cons, ih]; omega

theorem countP_eq_zero_of_subpred {p q : Event → Bool} {l : List Event}
    (hpq : ∀ e, p e = true → q e = true) (hq : l.countP q = 0) :
    l.countP p = 0 := by
  induction l with
  | nil => simp
  | cons e l ih =>
      rw [List.countP_cons] at hq ⊢
      by_cases hpe : p e = true
      · have := hpq e hpe
        simp [this] at hq
      · have hq0 : l.countP q = 0 := by
          rcases Nat.add_eq_zero.mp hq with ⟨h1, _⟩
          exact h1
        simp [hpe, ih hq0]

/-- C1: for every non-null callback pointer `cb` designating a valid
function, every context pointer and every status, the trampoline's trace
is the single call event `call cb taskData status` followed by the
callee's own events; in particular, when the callee itself issues no call
back through `cb`, the calls through `cb` in the whole execution are
exactly one, carrying exactly the arguments `(taskData, status)`. -/
theorem C1_invokes_exactly_once (env : FnEnv) (f : RustTaskCallback)
    (cb taskData : Ptr) (status : Int)
    (hnn : cb ≠ 0) (henv : env cb = some f)
    (hcb : callsTo cb (f taskData status).events = []) :
    (cgo_rust_task_callback_bridge_matrix_sdk_ffi env cb taskData status).events
        = Event.call cb taskData status :: (f taskData status).events ∧
    callsTo cb
        (cgo_rust_task_callback_bridge_matrix_sdk_ffi env cb taskData status).events
        = [Event.call cb taskData status] := by
  constructor
  · simp [cgo_rust_task_callback_bridge_matrix_sdk_ffi, invokeFnPtr, henv]
  · simp [cgo_rust_task_callback_bridge_matrix_sdk_ffi, invokeFnPtr, henv,
      callsTo, isCallTo]
    simpa [callsTo] using hcb

/-- Witness for C1 at the concrete input of the spec scenario: recording
callback at pointer `1`, context `0x1000 = 4096`, status `-1`. -/
theorem C1_invokes_exactly_once_witness :
    (cgo_rust_task_callback_bridge_matrix_sdk_ffi testEnv 1 4096 (-1)).events
        = Event.call 1 4096 (-1) :: (recordingCallback 4096 (-1)).events ∧
    callsTo 1
        (cgo_rust_task_callback_bridge_matrix_sdk_ffi testEnv 1 4096 (-1)).events
        = [Event.call 1 4096 (-1)] :=
  C1_invokes_exactly_once testEnv recordingCallback 1 4096 (-1)
    (by decide) rfl rfl

/-- C2: for every representable `int8_t` status, including the boundary
values `-128` and `127`, the call forwarded by the trampoline carries the
status bit-for-bit equal to the status supplied. -/
theorem C2_status_bit_for_bit (env : FnEnv) (f : RustTaskCallback)
    (cb taskData : Ptr) (status : Int)
    (hlo : -128 ≤ status) (hhi : status ≤ 127) (henv : env cb = some f) :
    (cgo_rust_task_callback_bridge_matrix_sdk_ffi env cb taskData status).events.head?
      = some (Event.call cb taskData status) := by
  simp [cgo_rust_task_callback_bridge_matrix_sdk_ffi, invokeFnPtr, henv]

/-- Witness for C2 at both boundary values of `int8_t`. -/
theorem C2_status_bit_for_bit_witness :
    (cgo_rust_task_callback_bridge_matrix_sdk_ffi testEnv 1 4096 (-128)).events.head?
        = some (Event.call 1 4096 (-128)) ∧
    (cgo_rust_task_callback_bridge_matrix_sdk_ffi testEnv 1 4096 127).events.head?
        = some (Event.call 1 4096 127) :=
  ⟨C2_status_bit_for_bit testEnv recordingCallback 1 4096 (-128)
      (by decide) (by decide) rfl,
   C2_status_bit_for_bit testEnv recordingCallback 1 4096 127
      (by decide) (by decide) rfl⟩

/-- C3: the context pointer reaches the callee as the very same bit
pattern that was passed in, and the trampoline itself performs no memory
read or write: every memory access of the whole execution belongs to the
callee's own trace. -/
theorem C3_context_passthrough_no_deref (env : FnEnv) (f : RustTaskCallback)
    (cb taskData : Ptr) (status : Int) (henv : env cb = some f) :
    (cgo_rust_task_callback_bridge_matrix_sdk_ffi env cb taskData status).events.head?
        = some (Event.call cb taskData status) ∧
    memAccesses
        (cgo_rust_task_callback_bridge_matrix_sdk_ffi env cb taskData status).events
        = memAccesses (f taskData status).events := by
  constructor
  · simp [cgo_rust_task_callback_bridge_matrix_sdk_ffi, invokeFnPtr, henv]
  · simp [cgo_rust_task_callback_bridge_matrix_sdk_ffi, invokeFnPtr, henv,
      memAccesses, isMemAccess]

/-- Witness for C3 at a concrete input. -/
theorem C3_context_passthrough_no_deref_witness :
    (cgo_rust_task_callback_bridge_matrix_sdk_ffi testEnv 1 4096 5).events.head?
        = some (Event.call 1 4096 5) ∧
    memAccesses
        (cgo_rust_task_callback_bridge_matrix_sdk_ffi testEnv 1 4096 5).events
        = memAccesses (recordingCallback 4096 5).events :=
  C3_context_passthrough_no_deref testEnv recordingCallback 1 4096 5 rfl

/-- C4: the callee runs synchronously and inline: the trampoline's trace
is the call event immediately followed by the callee's own events and
nothing else, the trampoline ends exactly when and how the callee's
invocation ends, and the execution spawns no work beyond what the callee
itself spawns. -/
theorem C4_synchronous_no_spawn (env : FnEnv) (f : RustTaskCallback)
    (cb taskData : Ptr) (status : Int) (henv : env cb = some f) :
    (cgo_rust_task_callback_bridge_matrix_sdk_ffi env cb taskData status).events
        = Event.call cb taskData status :: (f taskData status).events ∧
    spawnEvents
        (cgo_rust_task_callback_bridge_matrix_sdk_ffi env cb taskData status).events
        = spawnEvents (f taskData status).events ∧
    (cgo_rust_task_callback_bridge_matrix_sdk_ffi env cb taskData status).outcome
        = (f taskData status).outcome := by
  refine ⟨?_, ?_, ?_⟩ <;>
    simp [cgo_rust_task_callback_bridge_matrix_sdk_ffi, invokeFnPtr, henv,
      spawnEvents, isSpawn]

/-- Witness for C4 at a concrete input. -/
theorem C4_synchronous_no_spawn_witness :
    (cgo_rust_task_callback_bridge_matrix_sdk_ffi testEnv 1 7 3).events
        = Event.call 1 7 3 :: (recordingCallback 7 3).events ∧
    spawnEvents (cgo_rust_task_callback_bridge_matrix_sdk_ffi testEnv 1 7 3).events
        = spawnEvents (recordingCallback 7 3).events ∧
    (cgo_rust_task_callback_bridge_matrix_sdk_ffi testEnv 1 7 3).outcome
        = (recordingCallback 7 3).outcome :=
  C4_synchronous_no_spawn testEnv recordingCallback 1 7 3 rfl

/-- C5: the trampoline performs no defensive check on the callback
pointer: when `cb` is null or otherwise invalid (not bound in the
environment), the execution still consists of the attempted call at the
call site — no guarded or error-reporting branch runs instead — and its
outcome is undefined behavior. -/
theorem C5_no_defensive_check (env : FnEnv) (cb taskData : Ptr) (status : Int)
    (henv : env cb = none) :
    cgo_rust_task_callback_bridge_matrix_sdk_ffi env cb taskData status
      = { events := [Event.call cb taskData status], outcome := Outcome.undef } := by
  simp [cgo_rust_task_callback_bridge_matrix_sdk_ffi, invokeFnPtr, henv]

/-- Witness for C5 at the null callback pointer `0`, which `testEnv` does
not bind. -/
theorem C5_no_defensive_check_witness :
    cgo_rust_task_callback_bridge_matrix_sdk_ffi testEnv 0 4096 5
      = { events := [Event.call 0 4096 5], outcome := Outcome.undef } :=
  C5_no_defensive_check testEnv 0 4096 5 rfl

/-- C6: the trampoline is a transparent pass-through: its trace adds
nothing beyond the single forwarded call event in front of the callee's
own events, and its outcome — return, trap, or divergence — is exactly
the callee's outcome, propagated unmodified. -/
theorem C6_transparent_passthrough (env : FnEnv) (f : RustTaskCallback)
    (cb taskData : Ptr) (status : Int) (henv : env cb = some f) :
    (cgo_rust_task_callback_bridge_matrix_sdk_ffi env cb taskData status).outcome
        = (f taskData status).outcome ∧
    (cgo_rust_task_callback_bridge_matrix_sdk_ffi env cb taskData status).events
        = Event.call cb taskData status :: (f taskData status).events := by
  constructor <;>
    simp [cgo_rust_task_callback_bridge_matrix_sdk_ffi, invokeFnPtr, henv]

/-- Witness for C6 with a callback that traps: the trap is observed
unmodified by the trampoline's caller. -/
theorem C6_transparent_passthrough_witness :
    (cgo_rust_task_callback_bridge_matrix_sdk_ffi testEnv 2 4096 5).outcome
        = (trappingCallback 4096 5).outcome ∧
    (cgo_rust_task_callback_bridge_matrix_sdk_ffi testEnv 2 4096 5).events
        = Event.call 2 4096 5 :: (trappingCallback 4096 5).events :=
  C6_transparent_passthrough testEnv trappingCallback 2 4096 5 rfl

/-- C7: invoked with the null context pointer and status `0`, the
trampoline forwards exactly the null context and status `0`, with no
substitution of either value. -/
theorem C7_null_context_zero_status (env : FnEnv) (f : RustTaskCallback)
    (cb : Ptr) (henv : env cb = some f) :
    (cgo_rust_task_callback_bridge_matrix_sdk_ffi env cb 0 0).events.head?
      = some (Event.call cb 0 0) := by
  simp [cgo_rust_task_callback_bridge_matrix_sdk_ffi, invokeFnPtr, henv]

/-- Witness for C7 at a concrete environment. -/
theorem C7_null_context_zero_status_witness :
    (cgo_rust_task_callback_bridge_matrix_sdk_ffi testEnv 1 0 0).events.head?
      = some (Event.call 1 0 0) :=
  C7_null_context_zero_status testEnv recordingCallback 1 rfl

/-- C8: reentrancy. Two concurrent invocations of the trampoline with
distinct callback pointers and their own context/status pairs, whose
callbacks issue no calls of their own, produce — in every interleaving of
the two executions' traces — exactly one call through each callback, each
carrying exactly its own argument pair: no cross-contamination. The
trampoline's semantics depends on no state shared between the two
invocations. -/
theorem C8_reentrant_no_cross_contamination
    (env1 env2 : FnEnv) (f1 f2 : RustTaskCallback)
    (cb1 cb2 d1 d2 : Ptr) (s1 s2 : Int) (tr : List Event)
    (hne : cb1 ≠ cb2)
    (henv1 : env1 cb1 = some f1) (henv2 : env2 cb2 = some f2)
    (h1 : (f1 d1 s1).events.countP isCall = 0)
    (h2 : (f2 d2 s2).events.countP isCall = 0)
    (hint : Interleave
      (cgo_rust_task_callback_bridge_matrix_sdk_ffi env1 cb1 d1 s1).events
      (cgo_rust_task_callback_bridge_matrix_sdk_ffi env2 cb2 d2 s2).events tr) :
    countCalls cb1 tr = 1 ∧ countCallsWith cb1 d1 s1 tr = 1 ∧
    countCalls cb2 tr = 1 ∧ countCallsWith cb2 d2 s2 tr = 1 := by
  have hx : (cgo_rust_task_callback_bridge_matrix_sdk_ffi env1 cb1 d1 s1).events
      = Event.call cb1 d1 s1 :: (f1 d1 s1).events := by
    simp [cgo_rust_task_callback_bridge_matrix_sdk_ffi, invokeFnPtr, henv1]
  have hy : (cgo_rust_task_callback_bridge_matrix_sdk_ffi env2 cb2 d2 s2).events
      = Event.call cb2 d2 s2 :: (f2 d2 s2).events := by
    simp [cgo_rust_task_callback_bridge_matrix_sdk_ffi, invokeFnPtr, henv2]
  rw [hx, hy] at hint
  have hsubTo : ∀ (c : Ptr) (e : Event), isCallTo c e = true → isCall e = true := by
    intro c e
    cases e <;> simp [isCallTo, isCall]
  have hsubEq : ∀ (c d : Ptr) (s : Int) (e : Event),
      (decide (e = Event.call c d s)) = true → isCall e = true := by
    intro c d s e h
    have he : e = Event.call c d s := of_decide_eq_true h
    subst he
    simp [isCall]
  have z1 : (f1 d1 s1).events.countP (isCallTo cb1) = 0 :=
    countP_eq_zero_of_subpred (hsubTo cb1) h1
  have z2 : (f2 d2 s2).events.countP (isCallTo cb1) = 0 :=
    countP_eq_zero_of_subpred (hsubTo cb1) h2
  have z3 : (f1 d1 s1).events.countP (isCallTo cb2) = 0 :=
    countP_eq_zero_of_subpred (hsubTo cb2) h1
  have z4 : (f2 d2 s2).events.countP (isCallTo cb2) = 0 :=
    countP_eq_zero_of_subpred (hsubTo cb2) h2
  have w1 : (f1 d1 s1).events.countP (fun e => e = Event.call cb1 d1 s1) = 0 :=
    countP_eq_zero_of_subpred (hsubEq cb1 d1 s1) h1
  have w2 : (f2 d2 s2).events.countP (fun e => e = Event.call cb1 d1 s1) = 0 :=
    countP_eq_zero_of_subpred (hsubEq cb1 d1 s1) h2
  have w3 : (f1 d1 s1).events.countP (fun e => e = Event.call cb2 d2 s2) = 0 :=
    countP_eq_zero_of_subpred (hsubEq cb2 d2 s2) h1
  have w4 : (f2 d2 s2).events.countP (fun e => e = Event.call cb2 d2 s2) = 0 :=
    countP_eq_zero_of_subpred (hsubEq cb2 d2 s2) h2
  refine ⟨?_, ?_, ?_, ?_⟩
  · rw [countCalls, Interleave.countP_eq _ hint, List.countP_cons, List.countP_cons,
      z1, z2]
    simp [isCallTo, Ne.symm hne]
  · rw [countCallsWith, Interleave.countP_eq _ hint, List.countP_cons, List.countP_cons,
      w1, w2]
    simp [Ne.symm hne]
  · rw [countCalls, Interleave.countP_eq _ hint, List.countP_cons, List.countP_cons,
      z3, z4]
    simp [isCallTo, hne]
  · rw [countCallsWith, Interleave.countP_eq _ hint, List.countP_cons, List.countP_cons,
      w3, w4]
    simp [hne]

/-- Witness for C8: two concrete invocations (recording callback at
pointer `1` with `(4096, -1)`, trapping callback at pointer `2` with
`(8192, 7)`) and the interleaving that schedules the second thread's call
first. -/
theorem C8_reentrant_no_cross_contamination_witness :
    countCalls 1 [Event.call 2 8192 7, Event.call 1 4096 (-1)] = 1 ∧
    countCallsWith 1 4096 (-1) [Event.call 2 8192 7, Event.call 1 4096 (-1)] = 1 ∧
    countCalls 2 [Event.call 2 8192 7, Event.call 1 4096 (-1)] = 1 ∧
    countCallsWith 2 8192 7 [Event.call 2 8192 7, Event.call 1 4096 (-1)] = 1 :=
  C8_reentrant_no_cross_contamination testEnv testEnv
    recordingCallback trappingCallback 1 2 4096 8192 (-1) 7
    [Event.call 2 8192 7, Event.call 1 4096 (-1)]
    (by decide) rfl rfl rfl rfl
    (Interleave.right (Event.call 2 8192 7)
      (Interleave.left (Event.call 1 4096 (-1)) Interleave.nil))

/-- C9: determinism. The forwarded call the trampoline issues — callee
pointer and both argument values — is a function of nothing but the three
arguments: it is `call cb taskData status` in every run, identical even
across two runs under different function-pointer environments. -/
theorem C9_deterministic (env1 env2 : FnEnv) (cb taskData : Ptr) (status : Int) :
    (cgo_rust_task_callback_bridge_matrix_sdk_ffi env1 cb taskData status).events.head?
        = some (Event.call cb taskData status) ∧
    (cgo_rust_task_callback_bridge_matrix_sdk_ffi env2 cb taskData status).events.head?
        = (cgo_rust_task_callback_bridge_matrix_sdk_ffi env1 cb taskData status).events.head? := by
  constructor
  · unfold cgo_rust_task_callback_bridge_matrix_sdk_ffi invokeFnPtr
    cases env1 cb <;> simp
  · unfold cgo_rust_task_callback_bridge_matrix_sdk_ffi invokeFnPtr
    cases env1 cb <;> cases env2 cb <;> simp

/-- C10: the body has no loop and no recursion and issues exactly one
call of its own, so the whole execution contributes exactly one call
beyond the callee's, and the trampoline returns normally if and only if
the single forwarded callback invocation returns normally. -/
theorem C10_terminates_iff_callback_returns (env : FnEnv) (f : RustTaskCallback)
    (cb taskData : Ptr) (status : Int) (henv : env cb = some f) :
    ((cgo_rust_task_callback_bridge_matrix_sdk_ffi env cb taskData status).outcome
        = Outcome.returns ↔ (f taskData status).outcome = Outcome.returns) ∧
    (cgo_rust_task_callback_bridge_matrix_sdk_ffi env cb taskData status).events.countP isCall
        = 1 + (f taskData status).events.countP isCall := by
  constructor
  · simp [cgo_rust_task_callback_bridge_matrix_sdk_ffi, invokeFnPtr, henv]
  · simp [cgo_rust_task_callback_bridge_matrix_sdk_ffi, invokeFnPtr, henv,
      List.countP_cons, isCall]
    omega

/-- Witness for C10 at the recording callback, which returns. -/
theorem C10_terminates_iff_callback_returns_witness :
    ((cgo_rust_task_callback_bridge_matrix_sdk_ffi testEnv 1 4096 5).outcome
        = Outcome.returns ↔ (recordingCallback 4096 5).outcome = Outcome.returns) ∧
    (cgo_rust_task_callback_bridge_matrix_sdk_ffi testEnv 1 4096 5).events.countP isCall
        = 1 + (recordingCallback 4096 5).events.countP isCall :=
  C10_terminates_iff_callback_returns testEnv recordingCallback 1 4096 5 rfl
